import Mathlib

/-!
Verification of the Dual-energy-source repository's core:
the rule-based decision engine (`src/ai_models/energy_optimizer.py`),
the relay power controller (`src/hardware/power_controller.py`, modelled in
simulation mode, which is the repository's default: `simulation_mode: True`
and the GPIO library absent), and the supervisor (`src/main.py`).
Numeric telemetry and configuration values are modelled as rationals,
scores as integers, energy-source names as strings, telemetry mappings as
records with `Option` fields for keys that may be absent.
-/

namespace DualEnergy

/-- Python's substring test `pat in s`, on lists of characters. -/
def hasSubList : List Char → List Char → Bool
  | pat, [] => pat.isEmpty
  | pat, c :: rest => pat.isPrefixOf (c :: rest) || hasSubList pat rest

/-- Python's `pat in s` for strings. -/
def strContains (s pat : String) : Bool :=
  hasSubList pat.toList s.toList

/-- Python's `s.lower()`: lowercase each character (character-by-character
definition of `String.toLower`, kept kernel-computable). -/
def strLower (s : String) : String :=
  String.mk (s.toList.map Char.toLower)

/-- Standardized sensor data: the record produced by
`EnergyOptimizer._standardize_sensor_data`, which always carries every key
consumed by `_predict_energy_source`. -/
structure SensorData where
  solar_irradiance : ℚ
  temperature : ℚ
  humidity : ℚ
  battery_level : ℚ
  power_demand : ℚ
  wind_speed : ℚ
  time_of_day : ℚ
  weather_condition : String
deriving DecidableEq

/-- The three scores of `_predict_energy_source`. -/
structure Scores where
  solar : ℤ
  thermal : ℤ
  battery : ℤ
deriving DecidableEq

/-- Decision thresholds set in `EnergyOptimizer.__init__`. -/
def good_irradiance : ℚ := 600
def moderate_irradiance : ℚ := 300
def min_irradiance : ℚ := 100
def good_temp : ℚ := 25
def excellent_temp : ℚ := 30
def min_wind : ℚ := 5
def high_level : ℚ := 80
def good_level : ℚ := 50
def low_level : ℚ := 20
def critical_level : ℚ := 10

/-- Scoring part of `EnergyOptimizer._predict_energy_source`
(lines 101-160), translated statement by statement.  Each `if`/`elif`
chain of the Python code becomes a nested if-then-else; compound
statements that update several scores are split into one conditional
per updated score (the conditions are pure, so this is equivalent). -/
def computeScores (d : SensorData) : Scores :=
  let solar_score : ℤ := 0
  let thermal_score : ℤ := 0
  let battery_score : ℤ := 0
  -- Solar power scoring
  let solar_score :=
    if d.solar_irradiance > good_irradiance then solar_score + 3
    else if d.solar_irradiance > moderate_irradiance then solar_score + 2
    else if d.solar_irradiance > min_irradiance then solar_score + 1
    else solar_score
  -- Time of day bonus for solar (6 AM to 6 PM)
  let solar_score :=
    if 6 ≤ d.time_of_day ∧ d.time_of_day ≤ 18 then solar_score + 1 else solar_score
  -- Thermal power scoring
  let thermal_score :=
    if d.temperature > excellent_temp then thermal_score + 3
    else if d.temperature > good_temp then thermal_score + 2
    else thermal_score
  -- Wind helps thermal systems
  let thermal_score :=
    if d.wind_speed > min_wind then thermal_score + 1 else thermal_score
  -- Battery scoring
  let battery_score :=
    if d.battery_level > high_level then battery_score + 2
    else if d.battery_level > good_level then battery_score + 1
    else battery_score
  -- Penalty for low battery
  let battery_score :=
    if d.battery_level < low_level then battery_score - 3
    else if d.battery_level < critical_level then battery_score - 5
    else battery_score
  -- High demand favors stable sources
  let thermal_score :=
    if d.power_demand > 150 then thermal_score + 1 else thermal_score
  let battery_score :=
    if d.power_demand > 150 then battery_score + 1 else battery_score
  -- Night time adjustments
  let thermal_score :=
    if d.time_of_day < 6 ∨ d.time_of_day > 18 then thermal_score + 1 else thermal_score
  let battery_score :=
    if d.time_of_day < 6 ∨ d.time_of_day > 18 then battery_score + 1 else battery_score
  let solar_score :=
    if d.time_of_day < 6 ∨ d.time_of_day > 18 then solar_score - 2 else solar_score
  -- Weather adjustments
  let weather := strLower d.weather_condition
  let solar_score :=
    if strContains weather "cloudy" || strContains weather "overcast" then solar_score - 1
    else if strContains weather "rain" || strContains weather "storm" then solar_score - 2
    else if strContains weather "sunny" || strContains weather "clear" then solar_score + 1
    else solar_score
  let thermal_score :=
    if strContains weather "cloudy" || strContains weather "overcast" then thermal_score + 1
    else thermal_score
  let battery_score :=
    if strContains weather "cloudy" || strContains weather "overcast" then battery_score
    else if strContains weather "rain" || strContains weather "storm" then battery_score + 1
    else battery_score
  ⟨solar_score, thermal_score, battery_score⟩

/-- Embeds `scores = [solar_score, thermal_score, battery_score]`. -/
def scoresList (d : SensorData) : List ℤ :=
  [(computeScores d).solar, (computeScores d).thermal, (computeScores d).battery]

/-- Python's `max(scores)` for the three-element score list. -/
def maxScore (d : SensorData) : ℤ :=
  max (computeScores d).solar (max (computeScores d).thermal (computeScores d).battery)

/-- Embeds `prediction = scores.index(max(scores))`: the first index holding the
maximal score. -/
def prediction (d : SensorData) : ℕ :=
  (scoresList d).indexOf (maxScore d)

/-- Embeds `total_positive_score = sum(max(0, score) for score in scores)`. -/
def totalPositiveScore (d : SensorData) : ℤ :=
  max 0 (computeScores d).solar + max 0 (computeScores d).thermal
    + max 0 (computeScores d).battery

/-- Embeds `confidence = max_score / (total_positive_score + 0.1) if
total_positive_score > 0 else 0.5`. -/
def confidence (d : SensorData) : ℚ :=
  if totalPositiveScore d > 0
  then (maxScore d : ℚ) / ((totalPositiveScore d : ℚ) + 1/10)
  else 1/2

/-- Raw telemetry as delivered by the sensor manager: a mapping in which
any key may be absent (`none`).  Only the keys consumed by the core are
modelled. -/
structure Readings where
  solar_irradiance : Option ℚ
  solar_voltage : Option ℚ
  solar_current : Option ℚ
  temperature : Option ℚ
  ambient_temperature : Option ℚ
  humidity : Option ℚ
  battery_level : Option ℚ
  battery_soc : Option ℚ
  battery_voltage : Option ℚ
  battery_temperature : Option ℚ
  thermal_voltage : Option ℚ
  thermal_temperature : Option ℚ
  power_demand : Option ℚ
  load_demand : Option ℚ
  wind_speed : Option ℚ
  time_of_day : Option ℚ
  hour_of_day : Option ℚ
  weather_condition : Option String
deriving DecidableEq

/-- Embeds `EnergyOptimizer._standardize_sensor_data`: each field is
`sensor_data.get(key, fallback)` exactly as in the source. -/
def standardize (r : Readings) : SensorData :=
  ⟨r.solar_irradiance.getD ((r.solar_voltage.getD 0) * 50),
   r.temperature.getD (r.ambient_temperature.getD 20),
   r.humidity.getD 50,
   r.battery_level.getD (r.battery_soc.getD 50),
   r.power_demand.getD (r.load_demand.getD 100),
   r.wind_speed.getD 0,
   r.time_of_day.getD (r.hour_of_day.getD 12),
   r.weather_condition.getD "clear"⟩

/-- Embeds `EnergyOptimizer.predict_optimal_source`:
`sources = ['solar', 'thermal', 'battery']; return sources[prediction]`.
`prediction` is always 0, 1 or 2, so the default of `getD` is never used. -/
def predict_optimal_source (r : Readings) : String :=
  ["solar", "thermal", "battery"].getD (prediction (standardize r)) "battery"

/-- Configuration values read (with `config.get(key, default)`) by
`DualEnergySystem`; the claims quantify over these bounds. -/
structure Config where
  solar_min_voltage : ℚ
  solar_min_current : ℚ
  thermal_min_voltage : ℚ
  thermal_max_temperature : ℚ
  thermal_min_temperature : ℚ
  battery_min_voltage : ℚ
  battery_max_temperature : ℚ
  battery_critical_voltage : ℚ
  battery_critical_temp : ℚ
  thermal_critical_temp : ℚ
deriving DecidableEq

/-- The fallback defaults hard-coded at each `config.get` call site in
`src/main.py` (the shipped YAML has no flat keys of these names, so these
are the operative values; `mkRat 1 2 = 0.5`, `mkRat 21 2 = 10.5`). -/
def defaultConfig : Config :=
  ⟨12, mkRat 1 2, 5, 85, 40, mkRat 21 2, 45, 10, 50, 90⟩

/-- Embeds `DualEnergySystem.check_solar_safety`. -/
def check_solar_safety (cfg : Config) (r : Readings) : Bool :=
  decide (r.solar_voltage.getD 0 ≥ cfg.solar_min_voltage) &&
    decide (r.solar_current.getD 0 ≥ cfg.solar_min_current)

/-- Embeds `DualEnergySystem.check_thermal_safety`. -/
def check_thermal_safety (cfg : Config) (r : Readings) : Bool :=
  decide (r.thermal_voltage.getD 0 ≥ cfg.thermal_min_voltage) &&
    (decide (cfg.thermal_min_temperature ≤ r.thermal_temperature.getD 0) &&
      decide (r.thermal_temperature.getD 0 ≤ cfg.thermal_max_temperature))

/-- Embeds `DualEnergySystem.check_battery_safety`. -/
def check_battery_safety (cfg : Config) (r : Readings) : Bool :=
  decide (r.battery_voltage.getD 0 ≥ cfg.battery_min_voltage) &&
    decide (r.battery_temperature.getD 0 ≤ cfg.battery_max_temperature)

/-- Embeds `DualEnergySystem.is_safe_to_switch`: dictionary dispatch on the source
name, `safety_checks.get(new_source, lambda x: False)`. -/
def is_safe_to_switch (cfg : Config) (new_source : String) (r : Readings) : Bool :=
  if new_source = "solar" then check_solar_safety cfg r
  else if new_source = "thermal" then check_thermal_safety cfg r
  else if new_source = "battery" then check_battery_safety cfg r
  else false

/-- Embeds `PowerController.relay_states`: one energized flag per source. -/
structure RelayState where
  solar : Bool
  thermal : Bool
  battery : Bool
deriving DecidableEq

/-- Initial relay state set in `PowerController.__init__`
(battery on by default for safety). -/
def initialRelays : RelayState := ⟨false, false, true⟩

/-- The keys of `relay_states` (also of `gpio_pins` minus `emergency`). -/
def validSources : List String := ["solar", "thermal", "battery"]

/-- Number of energized relays. -/
def energizedCount (st : RelayState) : ℕ :=
  (if st.solar then 1 else 0) + (if st.thermal then 1 else 0) +
    (if st.battery then 1 else 0)

/-- Embeds `PowerController.activate_source`, simulation mode: an invalid name
(`source not in self.gpio_pins or source == 'emergency'`) returns `False`
and leaves the relays unchanged; otherwise the relay is set and `True`
returned (no GPIO call can fail in simulation mode). -/
def activate_source (st : RelayState) (source : String) : Bool × RelayState :=
  if source = "solar" then (true, ⟨true, st.thermal, st.battery⟩)
  else if source = "thermal" then (true, ⟨st.solar, true, st.battery⟩)
  else if source = "battery" then (true, ⟨st.solar, st.thermal, true⟩)
  else (false, st)

/-- Embeds `PowerController.deactivate_source`, simulation mode. -/
def deactivate_source (st : RelayState) (source : String) : Bool × RelayState :=
  if source = "solar" then (true, ⟨false, st.thermal, st.battery⟩)
  else if source = "thermal" then (true, ⟨st.solar, false, st.battery⟩)
  else if source = "battery" then (true, ⟨st.solar, st.thermal, false⟩)
  else (false, st)

/-- Embeds `PowerController._perform_switch`: break (guarded by
`if from_source in self.relay_states`), delay, make; the result is the
activation result. -/
def perform_switch (st : RelayState) (fromSource toSource : String) :
    Bool × RelayState :=
  let st1 := if fromSource ∈ validSources
    then (deactivate_source st fromSource).2 else st
  activate_source st1 toSource

/-- Embeds `PowerController.switch_source`: same source is a no-op returning
`True`; otherwise `_perform_switch`.  In simulation mode no exception can
occur, so the `except` branch (emergency fallback) is unreachable. -/
def switch_source (st : RelayState) (fromSource toSource : String) :
    Bool × RelayState :=
  if fromSource = toSource then (true, st)
  else perform_switch st fromSource toSource

/-- Embeds `PowerController.emergency_switch`: deactivate all three relays, short
delay, then — only when `safe_source` is truthy (a non-empty string) —
activate it, **discarding** the activation result.  The whole body is
wrapped in `try/except`, so the function always returns normally (it
returns `None`); no failure is reported to the caller. -/
def emergency_switch (st : RelayState) (safe_source : String) : RelayState :=
  let st1 : RelayState := ⟨false, false, false⟩
  if safe_source ≠ "" then (activate_source st1 safe_source).2 else st1

/-- Supervisor state: `DualEnergySystem.current_source` plus the relay
state owned by its `PowerController`. -/
structure SysState where
  current_source : String
  relays : RelayState
deriving DecidableEq

/-- Embeds `DualEnergySystem.switch_energy_source`: safety check, then
`power_controller.switch_source`; `current_source` is updated only on
success.  The second component reports whether the switch succeeded
(the branch that logs "Successfully switched"). -/
def switch_energy_source (cfg : Config) (st : SysState) (new_source : String)
    (r : Readings) : SysState × Bool :=
  if is_safe_to_switch cfg new_source r then
    let res := switch_source st.relays st.current_source new_source
    if res.1 then (⟨new_source, res.2⟩, true) else (⟨st.current_source, res.2⟩, false)
  else (st, false)

/-- Embeds `DualEnergySystem.find_safest_source`, priority order
battery > solar > thermal. -/
def find_safest_source (cfg : Config) (r : Readings) : Option String :=
  if check_battery_safety cfg r then some "battery"
  else if check_solar_safety cfg r then some "solar"
  else if check_thermal_safety cfg r then some "thermal"
  else none

/-- Embeds `DualEnergySystem.handle_emergency`: switch via
`power_controller.emergency_switch` only when a safest source exists and
differs from the current one.  The second component records the target
passed to `emergency_switch` (`none` when it was not invoked). -/
def handle_emergency (cfg : Config) (st : SysState) (r : Readings) :
    SysState × Option String :=
  match find_safest_source cfg r with
  | some s =>
      if s ≠ st.current_source
      then (⟨s, emergency_switch st.relays s⟩, some s)
      else (st, none)
  | none => (st, none)

/-- The three entries of `emergency_conditions` in
`DualEnergySystem.check_system_health`, disjoined: a `'low'` condition
triggers on `value <= threshold`, a `'high'` one on `value >= threshold`,
with `value = sensor_data.get(param, 0)`. -/
def emergencyConditionTriggered (cfg : Config) (r : Readings) : Bool :=
  decide (r.battery_voltage.getD 0 ≤ cfg.battery_critical_voltage) ||
    decide (r.battery_temperature.getD 0 ≥ cfg.battery_critical_temp) ||
    decide (r.thermal_temperature.getD 0 ≥ cfg.thermal_critical_temp)

/-- Embeds `DualEnergySystem.check_system_health`: the three emergency conditions
are evaluated in order and each triggered one runs `handle_emergency`.
The second component collects the emergency messages issued
(instrumentation mirroring the `handle_emergency(f"...")` calls; within a
cycle `handle_emergency` re-reads the same telemetry snapshot). -/
def check_system_health (cfg : Config) (st : SysState) (r : Readings) :
    SysState × List String :=
  let trig1 := decide (r.battery_voltage.getD 0 ≤ cfg.battery_critical_voltage)
  let st1 := if trig1 then (handle_emergency cfg st r).1 else st
  let m1 : List String := if trig1 then ["Critical low battery_voltage"] else []
  let trig2 := decide (r.battery_temperature.getD 0 ≥ cfg.battery_critical_temp)
  let st2 := if trig2 then (handle_emergency cfg st1 r).1 else st1
  let m2 := if trig2 then m1 ++ ["Critical high battery_temperature"] else m1
  let trig3 := decide (r.thermal_temperature.getD 0 ≥ cfg.thermal_critical_temp)
  let st3 := if trig3 then (handle_emergency cfg st2 r).1 else st2
  let m3 := if trig3 then m2 ++ ["Critical high thermal_temperature"] else m2
  (st3, m3)

/-- Observables of one iteration of `DualEnergySystem.control_loop`. -/
structure CycleResult where
  state : SysState
  normal_switch_attempted : Bool
  normal_switch_performed : Bool
  emergency_msgs : List String
deriving DecidableEq

/-- One iteration of `DualEnergySystem.control_loop`: predict the optimal
source, perform the decision-driven switch when it differs from the
current source, then run `check_system_health` — in that order. -/
def control_cycle (cfg : Config) (st : SysState) (r : Readings) : CycleResult :=
  let optimal := predict_optimal_source r
  let step1 :=
    if optimal ≠ st.current_source then switch_energy_source cfg st optimal r
    else (st, false)
  let health := check_system_health cfg step1.1 r
  ⟨health.1, decide (optimal ≠ st.current_source), step1.2, health.2⟩

/-- Readings with every key absent. -/
def rEmpty : Readings :=
  ⟨none, none, none, none, none, none, none, none, none, none, none, none,
   none, none, none, none, none, none⟩

/-- Supervisor state at start-up: `current_source = "battery"`, relay state
as initialized by the power controller. -/
def stInit : SysState := ⟨"battery", initialRelays⟩

/-- Standardized telemetry with battery level 5 (< 10) and irradiance 700
(> 600): noon, no wind, modest demand, empty weather string. -/
def dC1 : SensorData := ⟨700, 20, 50, 5, 100, 0, 12, ""⟩

/-- Standardized telemetry on which all three scores are non-positive:
no irradiance, cool, battery at 15 %, daytime, rain. -/
def dNegScores : SensorData := ⟨0, 20, 50, 15, 100, 0, 12, "rain"⟩

/-- Standardized telemetry with battery level 5 (< 10) but no irradiance
(0 ≤ 600): noon, no wind, modest demand, empty weather string. -/
def dLowBat : SensorData := ⟨0, 20, 50, 5, 100, 0, 12, ""⟩

/-- Standardized telemetry with irradiance 700 (> 600) and a healthy
battery at 60 % (≥ 10): noon, no wind, modest demand, empty weather. -/
def dHighIrr : SensorData := ⟨700, 20, 50, 60, 100, 0, 12, ""⟩

/-- Telemetry for a cycle in which the engine picks solar, solar passes
its safety check, and the battery voltage (5) is at emergency level. -/
def rC2 : Readings :=
  ⟨some 900, some 15, some 1, some 20, none, some 50, some 85, none,
   some 5, some 20, none, none, some 100, none, some 0, some 12, none,
   some "clear"⟩

/-- Telemetry where the battery fails its safety check (voltage 5 < 10.5)
but solar passes it (voltage 15, current 1). -/
def rEmerg : Readings :=
  ⟨none, some 15, some 1, none, none, none, none, none, some 5, none,
   none, none, none, none, none, none, none, none⟩

/-- First index of the maximum in a three-element integer list
(`[s, t, b].index(max([s, t, b]))`). -/
theorem indexOf_three_max (s t b : ℤ) :
    ([s, t, b].indexOf (max s (max t b))) =
      if s = max s (max t b) then 0
      else if t = max s (max t b) then 1 else 2 := by
  by_cases h1 : s = max s (max t b)
  · rw [if_pos h1, List.indexOf_cons_eq _ h1]
  · rw [if_neg h1, List.indexOf_cons_ne _ h1]
    by_cases h2 : t = max s (max t b)
    · rw [if_pos h2, List.indexOf_cons_eq _ h2]
    · rw [if_neg h2, List.indexOf_cons_ne _ h2]
      have h3 : b = max s (max t b) := by
        rcases max_choice s (max t b) with h | h
        · exact absurd h.symm h1
        · rcases max_choice t b with h' | h'
          · exact absurd (h.trans h').symm h2
          · exact (h.trans h').symm
      rw [List.indexOf_cons_eq _ h3]

set_option maxHeartbeats 1600000 in
/-- Closed form of the solar score: the sequential updates of
`_predict_energy_source` amount to a sum of one term per rule group. -/
theorem computeScores_solar (d : SensorData) :
    (computeScores d).solar =
      (if d.solar_irradiance > 600 then 3
       else if d.solar_irradiance > 300 then 2
       else if d.solar_irradiance > 100 then 1 else 0)
      + (if 6 ≤ d.time_of_day ∧ d.time_of_day ≤ 18 then 1 else 0)
      + (if d.time_of_day < 6 ∨ d.time_of_day > 18 then -2 else 0)
      + (if strContains (strLower d.weather_condition) "cloudy" ||
            strContains (strLower d.weather_condition) "overcast" then -1
         else if strContains (strLower d.weather_condition) "rain" ||
            strContains (strLower d.weather_condition) "storm" then -2
         else if strContains (strLower d.weather_condition) "sunny" ||
            strContains (strLower d.weather_condition) "clear" then 1
         else 0) := by
  simp only [computeScores, good_irradiance, moderate_irradiance,
    min_irradiance, good_temp, excellent_temp, min_wind, high_level,
    good_level, low_level, critical_level]
  split_ifs <;> omega

set_option maxHeartbeats 1600000 in
/-- Closed form of the battery score. -/
theorem computeScores_battery (d : SensorData) :
    (computeScores d).battery =
      (if d.battery_level > 80 then 2
       else if d.battery_level > 50 then 1 else 0)
      + (if d.battery_level < 20 then -3
         else if d.battery_level < 10 then -5 else 0)
      + (if d.power_demand > 150 then 1 else 0)
      + (if d.time_of_day < 6 ∨ d.time_of_day > 18 then 1 else 0)
      + (if strContains (strLower d.weather_condition) "cloudy" ||
            strContains (strLower d.weather_condition) "overcast" then 0
         else if strContains (strLower d.weather_condition) "rain" ||
            strContains (strLower d.weather_condition) "storm" then 1
         else 0) := by
  simp only [computeScores, good_irradiance, moderate_irradiance,
    min_irradiance, good_temp, excellent_temp, min_wind, high_level,
    good_level, low_level, critical_level]
  split_ifs <;> omega

/-- C7: the supervisor's per-source safety checks are exactly the stated
pure predicates of (defaulted) telemetry and configured bounds:
solar ⇔ voltage ≥ min_voltage ∧ current ≥ min_current; thermal ⇔
voltage ≥ min_voltage ∧ min_temperature ≤ temperature ≤ max_temperature;
battery ⇔ voltage ≥ min_voltage ∧ temperature ≤ max_temperature. -/
theorem C7_safety_checks (cfg : Config) (r : Readings) :
    (check_solar_safety cfg r = true ↔
      cfg.solar_min_voltage ≤ r.solar_voltage.getD 0 ∧
        cfg.solar_min_current ≤ r.solar_current.getD 0) ∧
    (check_thermal_safety cfg r = true ↔
      cfg.thermal_min_voltage ≤ r.thermal_voltage.getD 0 ∧
        cfg.thermal_min_temperature ≤ r.thermal_temperature.getD 0 ∧
          r.thermal_temperature.getD 0 ≤ cfg.thermal_max_temperature) ∧
    (check_battery_safety cfg r = true ↔
      cfg.battery_min_voltage ≤ r.battery_voltage.getD 0 ∧
        r.battery_temperature.getD 0 ≤ cfg.battery_max_temperature) := by
  refine ⟨?_, ?_, ?_⟩ <;>
    simp [check_solar_safety, check_thermal_safety, check_battery_safety,
      ge_iff_le, and_assoc]

/-- C8: `switch_source(X, X)` returns success and leaves the relay state
completely unchanged, for every relay state and every source name. -/
theorem C8_switch_same_source_noop (st : RelayState) (x : String) :
    switch_source st x x = (true, st) := by
  simp [switch_source]

/-- C9: for any source name outside solar/thermal/battery the supervisor's
safety validation returns `false` (no exception: the dispatch falls back
to `lambda x: False`), so `switch_energy_source` refuses the switch and
leaves the supervisor state untouched. -/
theorem C9_unknown_source_rejected (cfg : Config) (st : SysState) (r : Readings)
    (s : String) (h : s ∉ validSources) :
    is_safe_to_switch cfg s r = false ∧
      switch_energy_source cfg st s r = (st, false) := by
  have h1 : s ≠ "solar" := by rintro rfl; exact h (by decide)
  have h2 : s ≠ "thermal" := by rintro rfl; exact h (by decide)
  have h3 : s ≠ "battery" := by rintro rfl; exact h (by decide)
  have hu : is_safe_to_switch cfg s r = false := by
    simp [is_safe_to_switch, h1, h2, h3]
  exact ⟨hu, by simp [switch_energy_source, hu]⟩

/-- Witness for C9 at the concrete unknown source name `"wind"`. -/
theorem C9_unknown_source_rejected_witness :
    is_safe_to_switch defaultConfig "wind" rEmpty = false ∧
      switch_energy_source defaultConfig stInit "wind" rEmpty = (stInit, false) :=
  C9_unknown_source_rejected defaultConfig stInit rEmpty "wind" (by decide)

/-- C3 counterexample: `emergency_switch` to the invalid target `"wind"`
completes normally (the Python function catches every exception and
returns `None`, discarding the result of `activate_source`), yet leaves
ALL relays de-energized — a silent all-off state, refuting the claim that
a failed activation always surfaces a fatal condition. -/
theorem C3_counterexample_silent_all_off :
    emergency_switch initialRelays "wind" = ⟨false, false, false⟩ ∧
      energizedCount (emergency_switch initialRelays "wind") = 0 := by
  decide

/-- C3 amended: `emergency_switch` never raises; for a valid target it
results in exactly that source energized alone, but for any target
outside solar/thermal/battery it silently leaves every relay
de-energized (no fatal condition is surfaced). -/
theorem C3_amended_emergency_switch (st : RelayState) (s : String) :
    (s ∈ validSources →
      energizedCount (emergency_switch st s) = 1 ∧
        (s = "solar" → emergency_switch st s = ⟨true, false, false⟩) ∧
        (s = "thermal" → emergency_switch st s = ⟨false, true, false⟩) ∧
        (s = "battery" → emergency_switch st s = ⟨false, false, true⟩)) ∧
    (s ∉ validSources → emergency_switch st s = ⟨false, false, false⟩) := by
  constructor
  · intro h
    fin_cases h <;> simp [emergency_switch, activate_source, energizedCount]
  · intro h
    have h1 : s ≠ "solar" := by rintro rfl; exact h (by decide)
    have h2 : s ≠ "thermal" := by rintro rfl; exact h (by decide)
    have h3 : s ≠ "battery" := by rintro rfl; exact h (by decide)
    by_cases h0 : s = ""
    · simp [emergency_switch, h0]
    · simp [emergency_switch, activate_source, h0, h1, h2, h3]

/-- Witness for the amended C3 at the targets `"battery"` and `"wind"`. -/
theorem C3_amended_emergency_switch_witness :
    energizedCount (emergency_switch initialRelays "battery") = 1 ∧
      emergency_switch ⟨true, true, true⟩ "wind" = ⟨false, false, false⟩ :=
  ⟨((C3_amended_emergency_switch initialRelays "battery").1 (by decide)).1,
   (C3_amended_emergency_switch ⟨true, true, true⟩ "wind").2 (by decide)⟩

/-- C4: whenever the emergency handler passes a target to
`emergency_switch`, that target is `find_safest_source`'s result, which is
exactly the highest-priority source passing its safety check in the fixed
order battery > solar > thermal; and when no source passes, no switch is
performed and the state (in particular the current source) is unchanged. -/
theorem C4_emergency_target_priority (cfg : Config) (st : SysState)
    (r : Readings) :
    (∀ s, (handle_emergency cfg st r).2 = some s →
      find_safest_source cfg r = some s ∧ s ≠ st.current_source ∧
        (handle_emergency cfg st r).1.current_source = s) ∧
    (find_safest_source cfg r = some "battery" ↔
      check_battery_safety cfg r = true) ∧
    (find_safest_source cfg r = some "solar" ↔
      check_battery_safety cfg r = false ∧ check_solar_safety cfg r = true) ∧
    (find_safest_source cfg r = some "thermal" ↔
      check_battery_safety cfg r = false ∧ check_solar_safety cfg r = false ∧
        check_thermal_safety cfg r = true) ∧
    (find_safest_source cfg r = none → handle_emergency cfg st r = (st, none)) := by
  refine ⟨?_, ?_, ?_, ?_, ?_⟩
  · intro s hs
    unfold handle_emergency at hs ⊢
    cases hfind : find_safest_source cfg r with
    | none =>
        rw [hfind] at hs
        simp at hs
    | some x =>
        rw [hfind] at hs
        by_cases hx : x = st.current_source
        · simp [hx] at hs
        · simp [hx] at hs
          subst hs
          simp [hx]
  · unfold find_safest_source
    split_ifs with hb hsol hth <;> simp_all
  · unfold find_safest_source
    split_ifs with hb hsol hth <;> simp_all
  · unfold find_safest_source
    split_ifs with hb hsol hth <;> simp_all
  · intro hnone
    unfold handle_emergency
    rw [hnone]

/-- Witness for C4: with the default bounds, telemetry `rEmerg` (battery
voltage 5 unsafe, solar voltage 15 / current 1 safe) makes the handler
switch to solar; on fully absent telemetry `rEmpty` no source is safe and
the handler leaves the state alone. -/
theorem C4_emergency_target_priority_witness :
    (find_safest_source defaultConfig rEmerg = some "solar" ∧
      "solar" ≠ stInit.current_source ∧
        (handle_emergency defaultConfig stInit rEmerg).1.current_source = "solar") ∧
      handle_emergency defaultConfig stInit rEmpty = (stInit, none) :=
  ⟨(C4_emergency_target_priority defaultConfig stInit rEmerg).1 "solar" (by decide),
   (C4_emergency_target_priority defaultConfig stInit rEmpty).2.2.2.2 (by decide)⟩

/-- C10: in `check_system_health` a missing telemetry key defaults to `0`
and the low-bound comparison is non-strict, so a reading lacking
`battery_voltage` triggers the emergency path for every positive critical
voltage, and a reading exactly at the threshold triggers it as well. -/
theorem C10_missing_battery_voltage_triggers (cfg : Config) (st : SysState)
    (r : Readings) :
    (r.battery_voltage = none → 0 < cfg.battery_critical_voltage →
      emergencyConditionTriggered cfg r = true ∧
        "Critical low battery_voltage" ∈ (check_system_health cfg st r).2) ∧
    (r.battery_voltage = some cfg.battery_critical_voltage →
      emergencyConditionTriggered cfg r = true ∧
        "Critical low battery_voltage" ∈ (check_system_health cfg st r).2) := by
  have main : ∀ hle : r.battery_voltage.getD 0 ≤ cfg.battery_critical_voltage,
      emergencyConditionTriggered cfg r = true ∧
        "Critical low battery_voltage" ∈ (check_system_health cfg st r).2 := by
    intro hle
    constructor
    · simp [emergencyConditionTriggered, hle]
    · simp only [check_system_health, decide_eq_true hle, if_true]
      split_ifs <;> simp
  constructor
  · intro hmiss hpos
    exact main (by rw [hmiss]; exact le_of_lt hpos)
  · intro heq
    exact main (by rw [heq]; exact le_refl _)

/-- Witness for C10: empty telemetry and the default critical voltage 10. -/
theorem C10_missing_battery_voltage_triggers_witness :
    emergencyConditionTriggered defaultConfig rEmpty = true ∧
      "Critical low battery_voltage" ∈
        (check_system_health defaultConfig stInit rEmpty).2 :=
  (C10_missing_battery_voltage_triggers defaultConfig stInit rEmpty).1 rfl
    (by decide)

/-- C2 counterexample: in the cycle on telemetry `rC2` the battery voltage
(5) is at emergency level, yet the normal decision-driven switch to solar
is still performed (it precedes `check_system_health` in `control_loop`),
so the emergency path does not bypass the normal switching step. -/
theorem C2_counterexample_no_bypass :
    emergencyConditionTriggered defaultConfig rC2 = true ∧
      (control_cycle defaultConfig stInit rC2).normal_switch_performed = true ∧
      (control_cycle defaultConfig stInit rC2).state.current_source = "solar" := by
  decide

/-- C2 amended: emergency conditions never suppress the decision-driven
switch — the normal switch runs first and is performed exactly when the
predicted source differs from the current one, passes its safety check
and the relay switch succeeds, independently of any emergency condition;
`check_system_health` (which triggers the emergency path) is applied only
afterwards, to the post-switch state. -/
theorem C2_amended_normal_switch_first (cfg : Config) (st : SysState)
    (r : Readings) :
    (control_cycle cfg st r).normal_switch_performed =
      (decide (predict_optimal_source r ≠ st.current_source) &&
        (is_safe_to_switch cfg (predict_optimal_source r) r &&
          (switch_source st.relays st.current_source (predict_optimal_source r)).1)) ∧
    (control_cycle cfg st r).state =
      (check_system_health cfg
        (if predict_optimal_source r ≠ st.current_source
         then (switch_energy_source cfg st (predict_optimal_source r) r).1
         else st) r).1 := by
  constructor
  · unfold control_cycle switch_energy_source
    by_cases h : predict_optimal_source r ≠ st.current_source
    · simp only [if_pos h, decide_eq_true h, Bool.true_and]
      split_ifs <;> simp_all
    · simp only [if_neg h, decide_eq_false h, Bool.false_and]
  · unfold control_cycle
    by_cases h : predict_optimal_source r ≠ st.current_source <;> simp [h]

/-- C6: the chosen source index is the argmax of the three scores with
ties broken towards the first index in the order solar, thermal, battery:
solar (0) is chosen iff its score is ≥ both others, thermal (1) iff it
beats solar strictly and battery non-strictly, battery (2) only when it
strictly exceeds both. -/
theorem C6_argmax_first_index (d : SensorData) :
    (prediction d = 0 ↔
      (computeScores d).thermal ≤ (computeScores d).solar ∧
        (computeScores d).battery ≤ (computeScores d).solar) ∧
    (prediction d = 1 ↔
      (computeScores d).solar < (computeScores d).thermal ∧
        (computeScores d).battery ≤ (computeScores d).thermal) ∧
    (prediction d = 2 ↔
      (computeScores d).solar < (computeScores d).battery ∧
        (computeScores d).thermal < (computeScores d).battery) := by
  have hpred : prediction d =
      if (computeScores d).solar =
          max (computeScores d).solar
            (max (computeScores d).thermal (computeScores d).battery) then 0
      else if (computeScores d).thermal =
          max (computeScores d).solar
            (max (computeScores d).thermal (computeScores d).battery) then 1
      else 2 :=
    indexOf_three_max (computeScores d).solar (computeScores d).thermal
      (computeScores d).battery
  set s := (computeScores d).solar
  set t := (computeScores d).thermal
  set b := (computeScores d).battery
  have h1 : s ≤ max s (max t b) := le_max_left _ _
  have h2 : t ≤ max s (max t b) :=
    le_trans (le_max_left _ _) (le_max_right _ _)
  have h3 : b ≤ max s (max t b) :=
    le_trans (le_max_right _ _) (le_max_right _ _)
  have h4 : max s (max t b) = s ∨ max s (max t b) = t ∨ max s (max t b) = b := by
    rcases max_choice s (max t b) with h | h
    · exact Or.inl h
    · rcases max_choice t b with h' | h'
      · exact Or.inr (Or.inl (h.trans h'))
      · exact Or.inr (Or.inr (h.trans h'))
  rw [hpred]
  have key : ∀ m : ℤ, s ≤ m → t ≤ m → b ≤ m → (m = s ∨ m = t ∨ m = b) →
      (((if s = m then 0 else if t = m then 1 else 2) : ℕ) = 0 ↔
        t ≤ s ∧ b ≤ s) ∧
      (((if s = m then 0 else if t = m then 1 else 2) : ℕ) = 1 ↔
        s < t ∧ b ≤ t) ∧
      (((if s = m then 0 else if t = m then 1 else 2) : ℕ) = 2 ↔
        s < b ∧ t < b) := by
    intro m hm1 hm2 hm3 hm4
    rcases hm4 with h4 | h4 | h4 <;>
      refine ⟨?_, ?_, ?_⟩ <;> split_ifs with ha hb <;>
        first
          | exact iff_of_true rfl (by omega)
          | exact iff_of_false (by decide) (by omega)
  exact key (max s (max t b)) h1 h2 h3 h4

/-- C5: the decision confidence always lies in [0,1], and whenever all
three scores are ≤ 0 it is exactly 0.5. -/
theorem C5_confidence_bounds (d : SensorData) :
    (0 ≤ confidence d ∧ confidence d ≤ 1) ∧
    ((computeScores d).solar ≤ 0 → (computeScores d).thermal ≤ 0 →
      (computeScores d).battery ≤ 0 → confidence d = 1/2) := by
  constructor
  · unfold confidence
    split_ifs with h
    · have h1 : 0 < maxScore d := by
        unfold maxScore
        unfold totalPositiveScore at h
        omega
      have h2 : maxScore d ≤ totalPositiveScore d := by
        unfold maxScore totalPositiveScore
        omega
      have hden : (0 : ℚ) < (totalPositiveScore d : ℚ) + 1/10 := by
        have : (0 : ℚ) < (totalPositiveScore d : ℚ) := by exact_mod_cast h
        linarith
      constructor
      · apply div_nonneg _ (le_of_lt hden)
        exact_mod_cast le_of_lt h1
      · rw [div_le_one hden]
        have : (maxScore d : ℚ) ≤ (totalPositiveScore d : ℚ) := by exact_mod_cast h2
        linarith
    · norm_num
  · intro hs ht hb
    unfold confidence
    rw [if_neg]
    unfold totalPositiveScore
    omega

/-- Witness for C5 at telemetry where every score is non-positive
(solar −1, thermal 0, battery −2): confidence is exactly 0.5. -/
theorem C5_confidence_bounds_witness :
    (0 ≤ confidence dNegScores ∧ confidence dNegScores ≤ 1) ∧
      confidence dNegScores = 1/2 :=
  ⟨(C5_confidence_bounds dNegScores).1,
   (C5_confidence_bounds dNegScores).2 (by decide) (by decide) (by decide)⟩

/-- C1 counterexample: on `dC1` (battery level 5 < 10, irradiance
700 > 600, all other rule conditions off) the battery score is −3, not
the −8 the claim's cumulative reading demands, and the solar score is 4
(+3 irradiance, +1 daytime), not the 7 (= 3+2+1+1) that cumulative
irradiance bonuses would give: the `elif` chains are mutually
exclusive. -/
theorem C1_counterexample_exclusive_branches :
    dC1.battery_level < 10 ∧ dC1.solar_irradiance > 600 ∧
      (computeScores dC1).battery = -3 ∧ (computeScores dC1).battery ≠ -8 ∧
      (computeScores dC1).solar = 4 ∧ (computeScores dC1).solar ≠ 7 := by
  decide

/-- C1 amended: the branches of each `if`/`elif` chain are mutually
exclusive, and the critical-level branch is unreachable — two independent
universals: for every telemetry with battery level < 10 the battery
penalty applied is exactly −3 (total score −3 plus the demand/night/
weather bonuses), and for every telemetry with irradiance > 600 the
irradiance chain contributes exactly +3 to the solar score. -/
theorem C1_amended_exclusive_branches (d : SensorData) :
    (d.battery_level < 10 →
      (computeScores d).battery =
        -3 + (if d.power_demand > 150 then 1 else 0)
          + (if d.time_of_day < 6 ∨ d.time_of_day > 18 then 1 else 0)
          + (if strContains (strLower d.weather_condition) "cloudy" ||
                strContains (strLower d.weather_condition) "overcast" then 0
             else if strContains (strLower d.weather_condition) "rain" ||
                strContains (strLower d.weather_condition) "storm" then 1
             else 0)) ∧
    (d.solar_irradiance > 600 →
      (computeScores d).solar =
        3 + (if 6 ≤ d.time_of_day ∧ d.time_of_day ≤ 18 then 1 else 0)
          + (if d.time_of_day < 6 ∨ d.time_of_day > 18 then -2 else 0)
          + (if strContains (strLower d.weather_condition) "cloudy" ||
                strContains (strLower d.weather_condition) "overcast" then -1
             else if strContains (strLower d.weather_condition) "rain" ||
                strContains (strLower d.weather_condition) "storm" then -2
             else if strContains (strLower d.weather_condition) "sunny" ||
                strContains (strLower d.weather_condition) "clear" then 1
             else 0)) := by
  constructor
  · intro hb
    have h80 : ¬d.battery_level > 80 := by linarith
    have h50 : ¬d.battery_level > 50 := by linarith
    have h20 : d.battery_level < 20 := by linarith
    rw [computeScores_battery, if_neg h80, if_neg h50, if_pos h20]
    omega
  · intro hs
    rw [computeScores_solar, if_pos hs]

/-- Witness for the amended C1, exercising the two implications
independently: the battery part at `dLowBat` (battery 5 < 10 while
irradiance 0 ≤ 600) and the solar part at `dHighIrr` (irradiance
700 > 600 while battery 60 ≥ 10). -/
theorem C1_amended_exclusive_branches_witness :
    (computeScores dLowBat).battery = -3 + 0 + 0 + 0 ∧
      (computeScores dHighIrr).solar = 3 + 1 + 0 + 0 :=
  ⟨((C1_amended_exclusive_branches dLowBat).1 (by decide)).trans (by decide),
   ((C1_amended_exclusive_branches dHighIrr).2 (by decide)).trans (by decide)⟩

end DualEnergy
